import Mathlib

/-!
Verification of the AgentID Next.js request gate against its specification.

The development shallowly embeds the TypeScript sources:
  - `src/detect.ts` — agent classification (`isAgentRequest`) and token
    extraction (`extractToken`);
  - `src/verify.ts` — the JWKS endpoint check (`getJwks`) and the token
    verification pipeline (`verifyAgentIDToken`);
  - `src/middleware.ts` — the gate (`agentIDMiddleware`, `unauthorized`);
  - `src/index.ts` — the downstream reader (`getAgentIDResult`).

Header sets are modelled as association lists of name/value pairs with
case-insensitive lookup, matching the WHATWG `Headers` interface the code
uses.  JavaScript string primitives (`toLowerCase`, `trim`, `slice`,
`startsWith`) are modelled by structurally recursive functions on the
character list of a `String`, so every definition evaluates by kernel
reduction on concrete inputs.

The signature / JWKS internals of the `jose` library (`jwtVerify`,
`createRemoteJWKSet`) are not part of this repository; where the code
delegates to them, the definitions are modelled from the specification
(§4.3–§4.4) and carry a `Modelled from the spec` note in their doc comment.
-/

/-! ## JavaScript string primitives, modelled on character lists -/

/-- Model of JavaScript `String.prototype.toLowerCase` (ASCII range, which is
all the code compares). -/
def lowerStr (s : String) : String := String.mk (s.data.map Char.toLower)

/-- Model of JavaScript `String.prototype.trim`: strip leading and trailing
whitespace. -/
def trimStr (s : String) : String :=
  String.mk (((s.data.dropWhile Char.isWhitespace).reverse.dropWhile
    Char.isWhitespace).reverse)

/-- Model of JavaScript `String.prototype.startsWith`. -/
def startsWithStr (s pre : String) : Bool := pre.data.isPrefixOf s.data

/-- Model of JavaScript `String.prototype.slice(n)` (drop the first `n`
characters). -/
def dropStr (s : String) (n : Nat) : String := String.mk (s.data.drop n)

/-! ## Header sets

The middleware manipulates a WHATWG `Headers` object.  We model it as an
association list of `(name, value)` pairs; `hget` is case-insensitive like
`Headers.get`, `hdelete` removes every entry with the given name like
`Headers.delete`, and `hset` replaces like `Headers.set`. -/

/-- `Headers.get`: first value stored under the (case-insensitive) name. -/
def hget (h : List (String × String)) (name : String) : Option String :=
  (h.find? (fun p => lowerStr p.1 == lowerStr name)).map (fun p => p.2)

/-- `Headers.delete`: drop every entry with the (case-insensitive) name. -/
def hdelete (h : List (String × String)) (name : String) :
    List (String × String) :=
  h.filter (fun p => !(lowerStr p.1 == lowerStr name))

/-- `Headers.set`: replace any entry with the given name by a single new
pair. -/
def hset (h : List (String × String)) (name value : String) :
    List (String × String) :=
  hdelete h name ++ [(name, value)]

/-! ## `src/detect.ts` — classifier and token extractor -/

/-- JavaScript regex word character (`\w`): ASCII letter, digit or
underscore. -/
def isWordChar (c : Char) : Bool := c.isAlphanum || c == '_'

/-- A `\b` word boundary holds at a position whose neighbouring character is
absent or not a word character (all needles below start and end with word
characters). -/
def boundaryOk : Option Char → Bool
  | none => true
  | some c => !isWordChar c

/-- Regex-search engine for the three shapes of pattern in
`BOT_UA_PATTERNS`: scan the haystack for an occurrence of `needle`,
optionally requiring a word boundary before (`cb`) and after (`ca`) the
occurrence.  `prev` is the character preceding the current position. -/
def uaSearch (needle : List Char) (cb ca : Bool) :
    Option Char → List Char → Bool
  | prev, [] =>
      needle.isEmpty && (!cb || boundaryOk prev)
  | prev, c :: rest =>
      (needle.isPrefixOf (c :: rest) && (!cb || boundaryOk prev) &&
        (!ca || boundaryOk ((c :: rest).drop needle.length).head?))
      || uaSearch needle cb ca (some c) rest

/-- The three regex shapes used by `detect.ts`: a plain case-insensitive
substring `/s/i`, a word-bounded token `/\bs\b/i`, and the
`/\bgot\b\//i` shape (word boundary before, a literal slash after — the
slash is itself a non-word character, so the internal `\b` is implied). -/
inductive UAPattern where
  | substr (s : String)
  | word (s : String)
  | wordSlash (s : String)
deriving DecidableEq

/-- `RegExp.prototype.test` for the pattern shapes above (all patterns carry
the `i` flag, modelled by lowering both sides). -/
def uaPatternTest (p : UAPattern) (ua : String) : Bool :=
  match p with
  | .substr s => uaSearch (lowerStr s).data false false none (lowerStr ua).data
  | .word s => uaSearch (lowerStr s).data true true none (lowerStr ua).data
  | .wordSlash s =>
      uaSearch ((lowerStr s).data ++ ['/']) true false none (lowerStr ua).data

/-- `BOT_UA_PATTERNS` from `detect.ts`, in source order. -/
def BOT_UA_PATTERNS : List UAPattern := [
  .substr "GPTBot",
  .substr "ChatGPT-User",
  .substr "OAI-SearchBot",
  .substr "ClaudeBot",
  .substr "Claude-Web",
  .substr "anthropic-ai",
  .substr "Claude-User",
  .substr "Googlebot",
  .substr "Google-Extended",
  .substr "AdsBot-Google",
  .substr "bingbot",
  .substr "msnbot",
  .substr "PerplexityBot",
  .substr "YouBot",
  .substr "python-requests",
  .substr "node-fetch",
  .word "axios",
  .wordSlash "got",
  .word "undici",
  .word "curl",
  .word "wget",
  .word "httpie",
  .word "bot",
  .word "crawler",
  .word "spider",
  .word "scraper",
  .word "fetcher",
  .substr "mcp-client",
  .substr "agentid-client"]

/-- `BROWSER_UA_RE.test`: every major browser includes `Mozilla/5.0`
(pattern `/Mozilla\/5\.0/i`). -/
def browserTest (ua : String) : Bool :=
  uaSearch (lowerStr "Mozilla/5.0").data false false none (lowerStr ua).data

/-- `isAgentRequest` from `detect.ts`.  Note the JavaScript truthiness tests:
a missing or empty `user-agent` counts as absent, and
`!headers.get("accept-language")` treats an empty value like a missing
header. -/
def isAgentRequest (headers : List (String × String)) : Bool :=
  let ua := (hget headers "user-agent").getD ""
  if ua = "" then true
  else if BOT_UA_PATTERNS.any (fun p => uaPatternTest p ua) then true
  else if browserTest ua = false &&
      ((hget headers "accept-language").getD "") = "" then true
  else false

/-- Fallback branch of `extractToken`: the custom `X-AgentID-Token` header,
trimmed; an empty trimmed value is falsy in JavaScript and yields `null`. -/
def extractFallback (headers : List (String × String)) : Option String :=
  match (hget headers "x-agentid-token").map trimStr with
  | some custom => if custom ≠ "" then some custom else none
  | none => none

/-- `extractToken` from `detect.ts`: `Authorization: Bearer <token>` first
(case-exact scheme, trimmed remainder, empty counts as absent), then the
custom fallback header. -/
def extractToken (headers : List (String × String)) : Option String :=
  let auth := (hget headers "authorization").getD ""
  if startsWithStr auth "Bearer " then
    let token := trimStr (dropStr auth 7)
    if token ≠ "" then some token
    else extractFallback headers
  else extractFallback headers

/-! ## `src/verify.ts` — JWKS endpoint check -/

/-- The two observable fields of a WHATWG `URL` that `getJwks` inspects. -/
structure ParsedURL where
  protocol : String
  hostname : String
deriving DecidableEq

/-- Failures of key-set acquisition (§7: `MalformedEndpoint`,
`InsecureEndpoint`). -/
inductive JwksError where
  | malformedEndpoint
  | insecureEndpoint (rawUrl : String)
deriving DecidableEq

/-- The endpoint validation performed by `getJwks` on the first access to a
URL, before any JWKS handle is constructed (and hence before any network
fetch — `createRemoteJWKSet` only fetches lazily, at key-resolution time).
`parseURL` models the WHATWG `new URL(rawUrl)` constructor, which throws on
a malformed URL (`none`).  On success the validated URL is handed to the
key-set constructor. -/
def getJwksCheck (parseURL : String → Option ParsedURL) (rawUrl : String) :
    Except JwksError ParsedURL :=
  match parseURL rawUrl with
  | none => .error .malformedEndpoint
  | some url =>
      let isLocal := url.hostname = "localhost" ∨
        url.hostname = "127.0.0.1" ∨ url.hostname = "::1"
      if url.protocol ≠ "https:" ∧ ¬ isLocal then
        .error (.insecureEndpoint rawUrl)
      else
        .ok url

/-! ## `src/verify.ts` — token verification pipeline -/

/-- The claim fields of a decoded JWT payload.  Every field is optional: the
issuer mints them, this system only validates.  `sub = none` also covers a
`sub` of non-string type (the code checks `typeof payload.sub !==
"string"`). -/
structure JWTPayload where
  iss : Option String := none
  exp : Option Int := none
  iat : Option Int := none
  sub : Option String := none
  jti : Option String := none
  auth_method : Option String := none
deriving DecidableEq

/-- A candidate token as the verifier sees it: structural well-formedness
(three dot-separated segments of valid encoded JSON), the protected header's
declared algorithm, whether its `kid` resolves in the JWKS, whether the
signature verifies against the resolved key, and the decoded payload. -/
structure JWSInput where
  wellFormed : Bool
  alg : String
  keyFound : Bool
  sigValid : Bool
  payload : JWTPayload
deriving DecidableEq

/-- `VerifyTokenOptions` from `verify.ts`; `none` selects the source default
(`options.clockTolerance ?? 30`). -/
structure VerifyTokenOptions where
  jwksUrl : Option String := none
  clockTolerance : Option Int := none

/-- Effective clock tolerance: `options.clockTolerance ?? 30`. -/
def effTolerance (o : VerifyTokenOptions) : Int := o.clockTolerance.getD 30

/-- The checks of the verification pipeline, used to record which checks an
execution actually performs. -/
inductive VStep where
  | parse
  | algCheck
  | keyLookup
  | sigVerify
  | issCheck
  | expCheck
  | authMethodCheck
  | subCheck
deriving DecidableEq

/-- Typed verification failures (§7). -/
inductive VerifyError where
  | malformedToken
  | algorithmRejected
  | unknownKeyId
  | signatureInvalid
  | issuerMismatch
  | tokenExpired
  | invalidAuthMethod (got : String)
  | missingSubject
deriving DecidableEq

/-- Messages of the thrown errors.  The two claim-validation messages are
verbatim from `verify.ts`; the earlier pipeline stages throw inside the
`jose` library, whose exact texts are not part of this repository (short
stand-ins are used — no claim depends on them). -/
def errMessage : VerifyError → String
  | .malformedToken => "Invalid Compact JWS"
  | .algorithmRejected => "\"alg\" (Algorithm) Header Parameter value not allowed"
  | .unknownKeyId => "no applicable key found in the JSON Web Key Set"
  | .signatureInvalid => "signature verification failed"
  | .issuerMismatch => "unexpected \"iss\" claim value"
  | .tokenExpired => "\"exp\" claim timestamp check failed"
  | .invalidAuthMethod got =>
      "[agent-id] JWT has invalid auth_method: expected \"bankid\", got \"" ++
        got ++ "\""
  | .missingSubject => "[agent-id] JWT is missing the sub claim"

/-- The algorithm allowlist passed to `jwtVerify` (`algorithms: ["RS256"]`). -/
def ALGORITHMS : List String := ["RS256"]

/-- Modelled from the spec: the `jose` `jwtVerify` call of
`verifyAgentIDToken`, whose internals are not part of this repository.
§4.4 fixes the strict order (short-circuit on first failure): structural
parse, algorithm allowlist, key resolution, signature, issuer (`iss` must be
exactly `"agentid"`), expiry (`exp` must be ≥ now − tolerance; the claims
profile of §3 makes `exp` mandatory, so a missing `exp` fails the expiry
check).  Returns the list of checks performed together with the outcome. -/
def jwtVerifyTrace (i : JWSInput) (tol now : Int) :
    List VStep × Except VerifyError JWTPayload :=
  if i.wellFormed = false then
    ([.parse], .error .malformedToken)
  else if ALGORITHMS.contains i.alg = false then
    ([.parse, .algCheck], .error .algorithmRejected)
  else if i.keyFound = false then
    ([.parse, .algCheck, .keyLookup], .error .unknownKeyId)
  else if i.sigValid = false then
    ([.parse, .algCheck, .keyLookup, .sigVerify], .error .signatureInvalid)
  else if i.payload.iss ≠ some "agentid" then
    ([.parse, .algCheck, .keyLookup, .sigVerify, .issCheck],
      .error .issuerMismatch)
  else
    match i.payload.exp with
    | none =>
        ([.parse, .algCheck, .keyLookup, .sigVerify, .issCheck, .expCheck],
          .error .tokenExpired)
    | some e =>
        if e < now - tol then
          ([.parse, .algCheck, .keyLookup, .sigVerify, .issCheck, .expCheck],
            .error .tokenExpired)
        else
          ([.parse, .algCheck, .keyLookup, .sigVerify, .issCheck, .expCheck],
            .ok i.payload)

/-- `verifyAgentIDToken` from `verify.ts`, instrumented with the list of
checks performed: the `jwtVerify` stage above followed by the runtime
validation of the AgentID-specific claims, verbatim from the source —
`payload.auth_method !== "bankid"` throws the `auth_method` error (with
`payload.auth_method ?? "undefined"` interpolated), then `typeof payload.sub
!== "string" || payload.sub.length === 0` throws the missing-`sub` error;
otherwise the payload is returned unchanged (the source casts it to
`AgentIDClaims` without further checks). -/
def verifyTrace (i : JWSInput) (o : VerifyTokenOptions) (now : Int) :
    List VStep × Except VerifyError JWTPayload :=
  match jwtVerifyTrace i (effTolerance o) now with
  | (steps, .error e) => (steps, .error e)
  | (steps, .ok payload) =>
      if payload.auth_method ≠ some "bankid" then
        (steps ++ [.authMethodCheck],
          .error (.invalidAuthMethod (payload.auth_method.getD "undefined")))
      else
        match payload.sub with
        | none => (steps ++ [.authMethodCheck, .subCheck],
            .error .missingSubject)
        | some s =>
            if s = "" then
              (steps ++ [.authMethodCheck, .subCheck], .error .missingSubject)
            else
              (steps ++ [.authMethodCheck, .subCheck], .ok payload)

/-- The outcome of `verifyAgentIDToken`: decoded claims, or a typed error. -/
def verifyAgentIDToken (i : JWSInput) (o : VerifyTokenOptions) (now : Int) :
    Except VerifyError JWTPayload :=
  (verifyTrace i o now).2

/-! ## `src/middleware.ts` — the gate -/

/-- `MANAGED_HEADERS` from `middleware.ts`: headers injected downstream and
stripped from the incoming request first to prevent spoofing. -/
def MANAGED_HEADERS : List String :=
  ["x-agentid-verified", "x-agentid-sub", "x-agentid-claims"]

/-- The strip loop of the middleware:
`for (const name of MANAGED_HEADERS) requestHeaders.delete(name)`. -/
def stripManaged (h : List (String × String)) : List (String × String) :=
  MANAGED_HEADERS.foldl hdelete h

/-- Middleware options (`AgentIDMiddlewareOptions`).  The override callback
receives the original request (modelled by its header list) and the reason
message, and may return a custom response (modelled by an opaque index). -/
structure MWOptions where
  jwksUrl : Option String := none
  blockUnauthorizedAgents : Bool := true
  clockTolerance : Int := 30
  onUnauthorizedAgent :
    Option (List (String × String) → String → Option Nat) := none

/-- The responses the middleware can produce: `NextResponse.next` with
forwarded request headers, the 403 JSON rejection
(`NextResponse.json({error, message}, {status: 403})`), or a custom response
returned by the override callback. -/
inductive MWResponse where
  | next (requestHeaders : List (String × String))
  | json403 (error : String) (message : String)
  | custom (response : Nat)
deriving DecidableEq

/-- The default branch of `unauthorized`: block with the fixed 403 body, or
mark the forwarded headers with `x-agentid-verified: false` and pass
through. -/
def unauthorizedDefault (requestHeaders : List (String × String))
    (message : String) (block : Bool) : MWResponse :=
  if block then .json403 "AGENT_UNAUTHORIZED" message
  else .next (hset requestHeaders "x-agentid-verified" "false")

/-- `unauthorized` from `middleware.ts`: the override callback (when
configured) may short-circuit with a custom response; otherwise the default
branch runs. -/
def unauthorized (request requestHeaders : List (String × String))
    (message : String) (block : Bool)
    (onUnauthorized :
      Option (List (String × String) → String → Option Nat)) : MWResponse :=
  match onUnauthorized with
  | some cb =>
      match cb request message with
      | some r => .custom r
      | none => unauthorizedDefault requestHeaders message block
  | none => unauthorizedDefault requestHeaders message block

/-- The generic failure message used for every token-verification failure. -/
def INVALID_TOKEN_MESSAGE : String := "Invalid or expired AgentID token."

/-- The message used when an agent request carries no token. -/
def MISSING_TOKEN_MESSAGE : String :=
  "Agent request missing AgentID token. Provide \"Authorization: Bearer <token>\"."

/-- Model of `JSON.stringify(claims)` — an opaque serialization; no claim
inspects its content. -/
def stringifyClaims (c : JWTPayload) : String :=
  "\x7b\"sub\":\"" ++ c.sub.getD "" ++ "\"\x7d"

/-- `agentIDMiddleware` from `middleware.ts`.  `verify` abstracts the
`await verifyAgentIDToken(token, …)` call (every theorem below quantifies
over it): the middleware only observes success with claims, or a thrown
error reduced to its message string (the `catch` block).  The verified
branch guarantees `claims.sub` is a string, hence the `getD ""` never
fires on outputs of the real verifier. -/
def agentIDMiddleware (opts : MWOptions)
    (verify : String → Except String JWTPayload)
    (request : List (String × String)) : MWResponse :=
  let requestHeaders := stripManaged request
  if isAgentRequest requestHeaders = false then .next requestHeaders
  else
    match extractToken requestHeaders with
    | none =>
        unauthorized request requestHeaders MISSING_TOKEN_MESSAGE
          opts.blockUnauthorizedAgents opts.onUnauthorizedAgent
    | some token =>
        match verify token with
        | .error _ =>
            unauthorized request requestHeaders INVALID_TOKEN_MESSAGE
              opts.blockUnauthorizedAgents opts.onUnauthorizedAgent
        | .ok claims =>
            .next (hset (hset (hset requestHeaders
              "x-agentid-verified" "true")
              "x-agentid-sub" (claims.sub.getD ""))
              "x-agentid-claims" (stringifyClaims claims))

/-! ## `src/index.ts` — downstream reader -/

/-- The `reason` field of an unverified `AgentIDResult`. -/
inductive UnverifiedReason where
  | not_agent
  | no_token
  | invalid_token
deriving DecidableEq

/-- `AgentIDResult` from `types.ts`. -/
inductive AgentIDResult where
  | verified (claims : JWTPayload)
  | unverified (reason : UnverifiedReason)
deriving DecidableEq

/-- `getAgentIDResult` from `index.ts`.  `parseClaims` models the
`JSON.parse` call inside the `try`/`catch` (`none` = parse threw).  The
function is total by construction: every header configuration maps to some
`AgentIDResult`, mirroring the source's catch-all behaviour. -/
def getAgentIDResult (parseClaims : String → Option JWTPayload)
    (headers : List (String × String)) : AgentIDResult :=
  let verified := hget headers "x-agentid-verified"
  if verified ≠ some "true" then
    .unverified (if verified = some "false" then .no_token else .not_agent)
  else
    match hget headers "x-agentid-claims" with
    | none => .unverified .invalid_token
    | some claimsJson =>
        if claimsJson = "" then .unverified .invalid_token
        else
          match parseClaims claimsJson with
          | some claims => .verified claims
          | none => .unverified .invalid_token

/-! ## Substring containment (used to state that an error message names a
field) -/

/-- `listContains needle hay`: `needle` occurs as a contiguous run inside
`hay`. -/
def listContains (needle : List Char) : List Char → Bool
  | [] => needle.isEmpty
  | c :: rest => needle.isPrefixOf (c :: rest) || listContains needle rest

/-- `strContainsSub hay needle`: the string `needle` occurs inside `hay`. -/
def strContainsSub (hay needle : String) : Bool :=
  listContains needle.data hay.data

/-! ## Helper lemmas: header-set algebra -/

theorem find?_filter_of_imp {α : Type} (p q : α → Bool) (l : List α)
    (himp : ∀ a, p a = true → q a = true) :
    (l.filter q).find? p = l.find? p := by
  induction l with
  | nil => rfl
  | cons x t ih =>
      rw [List.filter_cons]
      by_cases hq : q x = true
      · rw [if_pos hq]
        by_cases hp : p x = true
        · rw [List.find?_cons_of_pos _ hp, List.find?_cons_of_pos _ hp]
        · rw [List.find?_cons_of_neg _ hp, List.find?_cons_of_neg _ hp]
          exact ih
      · rw [if_neg hq]
        have hp : ¬ p x = true := fun hpx => hq (himp x hpx)
        rw [List.find?_cons_of_neg _ hp]
        exact ih

theorem hget_hdelete_self (h : List (String × String)) (n : String) :
    hget (hdelete h n) n = none := by
  have hfind : (hdelete h n).find?
      (fun p => lowerStr p.1 == lowerStr n) = none := by
    rw [List.find?_eq_none]
    intro x hx
    have hmem := (List.mem_filter.mp hx).2
    intro hpx
    rw [hpx] at hmem
    exact absurd hmem (by decide)
  simp [hget, hfind]

theorem hget_hdelete_ne (h : List (String × String)) (n m : String)
    (hne : lowerStr m ≠ lowerStr n) : hget (hdelete h n) m = hget h m := by
  have hfind := find?_filter_of_imp
    (fun p => lowerStr p.1 == lowerStr m)
    (fun p => !(lowerStr p.1 == lowerStr n)) h
    (by
      intro a ha
      have hm : lowerStr a.1 = lowerStr m := by
        simpa using ha
      simp only [Bool.not_eq_true']
      exact beq_eq_false_iff_ne.mpr (fun hc => hne (hm ▸ hc))
      )
  simp only [hget, hdelete]
  rw [hfind]

theorem hget_hset_self (h : List (String × String)) (n v : String) :
    hget (hset h n v) n = some v := by
  have hnone : (hdelete h n).find?
      (fun p => lowerStr p.1 == lowerStr n) = none := by
    rw [List.find?_eq_none]
    intro x hx
    have hmem := (List.mem_filter.mp hx).2
    intro hpx
    rw [hpx] at hmem
    exact absurd hmem (by decide)
  simp only [hget, hset, List.find?_append, hnone, Option.none_or]
  rw [List.find?_cons_of_pos _ (by simp)]
  rfl

theorem hget_hset_ne (h : List (String × String)) (n m v : String)
    (hne : lowerStr m ≠ lowerStr n) : hget (hset h n v) m = hget h m := by
  have hsingle : List.find? (fun p => lowerStr p.1 == lowerStr m)
      [(n, v)] = none := by
    rw [List.find?_eq_none]
    intro x hx
    rw [List.mem_singleton.mp hx]
    simp only [Bool.not_eq_true]
    exact beq_eq_false_iff_ne.mpr (fun hc => hne hc.symm)
  have hdel := hget_hdelete_ne h n m hne
  simp only [hget] at hdel ⊢
  simp only [hset, List.find?_append, hsingle, Option.or_none]
  exact hdel

theorem stripManaged_eq (h : List (String × String)) :
    stripManaged h =
      hdelete (hdelete (hdelete h "x-agentid-verified") "x-agentid-sub")
        "x-agentid-claims" := rfl

theorem hget_stripManaged_verified (h : List (String × String)) :
    hget (stripManaged h) "x-agentid-verified" = none := by
  rw [stripManaged_eq]
  rw [hget_hdelete_ne _ _ _ (by decide), hget_hdelete_ne _ _ _ (by decide)]
  exact hget_hdelete_self h _

theorem hdelete_hdelete (h : List (String × String)) (a b : String) :
    hdelete (hdelete h a) b = hdelete (hdelete h b) a := by
  simp only [hdelete, List.filter_filter]
  exact List.filter_congr (fun x _ => Bool.and_comm _ _)

theorem hdelete_idem (h : List (String × String)) (a : String) :
    hdelete (hdelete h a) a = hdelete h a := by
  simp only [hdelete, List.filter_filter]
  exact List.filter_congr (fun x _ => Bool.and_self _)

theorem stripManaged_idem (h : List (String × String)) :
    stripManaged (stripManaged h) = stripManaged h := by
  simp only [stripManaged_eq]
  rw [hdelete_hdelete _ "x-agentid-claims" "x-agentid-verified",
    hdelete_hdelete _ "x-agentid-sub" "x-agentid-verified",
    hdelete_idem,
    hdelete_hdelete _ "x-agentid-claims" "x-agentid-sub",
    hdelete_idem,
    hdelete_idem]

/-! ## Helper lemmas: substring containment -/

theorem listContains_append_left (n h t : List Char)
    (hc : listContains n h = true) : listContains n (h ++ t) = true := by
  induction h with
  | nil =>
      have hn : n = [] := by
        simpa [listContains] using hc
      subst hn
      cases t with
      | nil => rfl
      | cons c r => simp [listContains, List.isPrefixOf]
  | cons c r ih =>
      rw [listContains] at hc
      rcases Bool.or_eq_true_iff.mp hc with hpre | hrest
      · have hpre2 : n.isPrefixOf ((c :: r) ++ t) = true := by
          rw [List.isPrefixOf_iff_prefix] at hpre ⊢
          exact hpre.trans (List.prefix_append _ _)
        rw [List.cons_append, listContains]
        rw [List.cons_append] at hpre2
        simp [hpre2]
      · rw [List.cons_append, listContains]
        simp [ih hrest]

theorem auth_method_message_contains (g : String) :
    strContainsSub (errMessage (.invalidAuthMethod g)) "auth_method" = true := by
  show listContains "auth_method".data
    (("[agent-id] JWT has invalid auth_method: expected \"bankid\", got \"" ++
      (g ++ "\"")).data) = true
  rw [String.data_append]
  exact listContains_append_left _ _ _ (by decide)

/-! ## Claim theorems -/

/-- C1: for every token whose protected header declares any algorithm other
than `"RS256"` (including `"none"` and symmetric schemes), and whatever its
claims, `verifyAgentIDToken` fails with the algorithm-allowlist error, and
the signature-verification check is not among the checks performed. -/
theorem verify_rejects_non_rs256_before_signature (i : JWSInput)
    (o : VerifyTokenOptions) (now : Int) (hw : i.wellFormed = true)
    (ha : i.alg ≠ "RS256") :
    verifyAgentIDToken i o now = .error .algorithmRejected ∧
    VStep.sigVerify ∉ (verifyTrace i o now).1 := by
  have hc : ALGORITHMS.contains i.alg = false := by
    simp [ALGORITHMS, ha]
  rw [verifyAgentIDToken, verifyTrace, jwtVerifyTrace]
  rw [hw, hc]
  simp

/-- C1 witness: an `alg: "none"` token with otherwise well-formed claims is
rejected with no signature check performed. -/
theorem verify_rejects_non_rs256_before_signature_witness :
    verifyAgentIDToken
      ⟨true, "none", true, false,
        ⟨some "agentid", some 9999, some 0, some "sub1", some "jti1",
          some "bankid"⟩⟩ {} 0 = .error .algorithmRejected ∧
    VStep.sigVerify ∉ (verifyTrace
      ⟨true, "none", true, false,
        ⟨some "agentid", some 9999, some 0, some "sub1", some "jti1",
          some "bankid"⟩⟩ {} 0).1 :=
  verify_rejects_non_rs256_before_signature _ _ _ rfl (by decide)

/-- C5: for a token passing every check other than expiry, verification
succeeds exactly when `exp ≥ now − tolerance` (tolerance
`options.clockTolerance ?? 30`); any `exp < now − tolerance` fails with the
expiry error, and at tolerance 0 any `exp` in the past fails. -/
theorem verify_expiry_iff (i : JWSInput) (o : VerifyTokenOptions)
    (now e : Int) (s : String) (hw : i.wellFormed = true)
    (ha : i.alg = "RS256") (hk : i.keyFound = true) (hs : i.sigValid = true)
    (hi : i.payload.iss = some "agentid") (he : i.payload.exp = some e)
    (ham : i.payload.auth_method = some "bankid")
    (hsub : i.payload.sub = some s) (hs0 : s ≠ "") :
    (verifyAgentIDToken i o now = .ok i.payload ↔ now - effTolerance o ≤ e) ∧
    (e < now - effTolerance o →
      verifyAgentIDToken i o now = .error .tokenExpired) ∧
    (o.clockTolerance = some 0 → e < now →
      verifyAgentIDToken i o now = .error .tokenExpired) := by
  have hfail : e < now - effTolerance o →
      verifyAgentIDToken i o now = .error .tokenExpired := by
    intro hlt
    simp [verifyAgentIDToken, verifyTrace, jwtVerifyTrace, ALGORITHMS, hw,
      ha, hk, hs, hi, he, hlt]
  have hok : ¬ e < now - effTolerance o →
      verifyAgentIDToken i o now = .ok i.payload := by
    intro hlt
    simp [verifyAgentIDToken, verifyTrace, jwtVerifyTrace, ALGORITHMS, hw,
      ha, hk, hs, hi, he, hlt, ham, hsub, hs0]
  refine ⟨⟨?_, ?_⟩, fun hlt => hfail hlt, ?_⟩
  · intro hv
    by_contra hcon
    rw [hfail (by omega)] at hv
    exact absurd hv (by simp)
  · intro hle
    exact hok (by omega)
  · intro h0 hpast
    refine hfail ?_
    rw [effTolerance, h0]
    simpa using hpast

/-- C5 witness: with tolerance 0 an `exp` in the past is rejected as
expired; with the default tolerance a future `exp` verifies. -/
theorem verify_expiry_iff_witness :
    verifyAgentIDToken ⟨true, "RS256", true, true,
      ⟨some "agentid", some 100, some 0, some "user1", some "j1",
        some "bankid"⟩⟩ { clockTolerance := some 0 } 200
      = .error .tokenExpired ∧
    verifyAgentIDToken ⟨true, "RS256", true, true,
      ⟨some "agentid", some 1000, some 0, some "user1", some "j1",
        some "bankid"⟩⟩ {} 200
      = .ok ⟨some "agentid", some 1000, some 0, some "user1", some "j1",
        some "bankid"⟩ := by
  constructor
  · exact (verify_expiry_iff _ _ 200 100 "user1" rfl rfl rfl rfl rfl rfl rfl
      rfl (by decide)).2.2 rfl (by norm_num)
  · exact (verify_expiry_iff _ _ 200 1000 "user1" rfl rfl rfl rfl rfl rfl rfl
      rfl (by decide)).1.mpr (by norm_num [effTolerance])

/-- C8: for a token passing the structural, algorithm, key, signature,
issuer and expiry checks — if `auth_method` is absent or differs from
`"bankid"`, verification fails with an error whose message names the
`auth_method` field; if `auth_method` is `"bankid"` and `sub` is a
non-empty string, verification returns the full claims. -/
theorem verify_auth_method_check (i : JWSInput) (o : VerifyTokenOptions)
    (now e : Int) (hw : i.wellFormed = true) (ha : i.alg = "RS256")
    (hk : i.keyFound = true) (hs : i.sigValid = true)
    (hi : i.payload.iss = some "agentid") (he : i.payload.exp = some e)
    (hexp : now - effTolerance o ≤ e) :
    (∀ am, i.payload.auth_method = some am → am ≠ "bankid" →
      verifyAgentIDToken i o now = .error (.invalidAuthMethod am) ∧
      strContainsSub (errMessage (.invalidAuthMethod am)) "auth_method"
        = true)
    ∧ (i.payload.auth_method = none →
      verifyAgentIDToken i o now = .error (.invalidAuthMethod "undefined") ∧
      strContainsSub (errMessage (.invalidAuthMethod "undefined"))
        "auth_method" = true)
    ∧ (∀ s, i.payload.auth_method = some "bankid" → i.payload.sub = some s →
        s ≠ "" → verifyAgentIDToken i o now = .ok i.payload) := by
  have hlt : ¬ e < now - effTolerance o := by omega
  refine ⟨?_, ?_, ?_⟩
  · intro am ham hne
    refine ⟨?_, auth_method_message_contains am⟩
    simp [verifyAgentIDToken, verifyTrace, jwtVerifyTrace, ALGORITHMS, hw,
      ha, hk, hs, hi, he, hlt, ham, hne]
  · intro ham
    refine ⟨?_, auth_method_message_contains "undefined"⟩
    simp [verifyAgentIDToken, verifyTrace, jwtVerifyTrace, ALGORITHMS, hw,
      ha, hk, hs, hi, he, hlt, ham]
  · intro s ham hsub hs0
    simp [verifyAgentIDToken, verifyTrace, jwtVerifyTrace, ALGORITHMS, hw,
      ha, hk, hs, hi, he, hlt, ham, hsub, hs0]

/-- C8 witness: `auth_method: "password"` is rejected with a message naming
`auth_method`; a missing `auth_method` likewise; `auth_method: "bankid"`
with non-empty `sub` verifies. -/
theorem verify_auth_method_check_witness :
    (verifyAgentIDToken ⟨true, "RS256", true, true,
      ⟨some "agentid", some 1000, some 0, some "user1", some "j1",
        some "password"⟩⟩ {} 200
      = .error (.invalidAuthMethod "password") ∧
     strContainsSub (errMessage (.invalidAuthMethod "password"))
       "auth_method" = true) ∧
    (verifyAgentIDToken ⟨true, "RS256", true, true,
      ⟨some "agentid", some 1000, some 0, some "user1", some "j1",
        none⟩⟩ {} 200
      = .error (.invalidAuthMethod "undefined") ∧
     strContainsSub (errMessage (.invalidAuthMethod "undefined"))
       "auth_method" = true) ∧
    verifyAgentIDToken ⟨true, "RS256", true, true,
      ⟨some "agentid", some 1000, some 0, some "user1", some "j1",
        some "bankid"⟩⟩ {} 200
      = .ok ⟨some "agentid", some 1000, some 0, some "user1", some "j1",
        some "bankid"⟩ := by
  refine ⟨?_, ?_, ?_⟩
  · exact (verify_auth_method_check _ _ 200 1000 rfl rfl rfl rfl rfl rfl
      (by norm_num [effTolerance])).1 "password" rfl (by decide)
  · exact (verify_auth_method_check _ _ 200 1000 rfl rfl rfl rfl rfl rfl
      (by norm_num [effTolerance])).2.1 rfl
  · exact (verify_auth_method_check _ _ 200 1000 rfl rfl rfl rfl rfl rfl
      (by norm_num [effTolerance])).2.2 "user1" rfl rfl (by decide)

/-- C6: key-set acquisition rejects (with the HTTPS-required error, before
any handle that could fetch is constructed) every parseable URL whose
scheme is not HTTPS and whose hostname is none of `localhost`,
`127.0.0.1`, `::1`; a URL with hostname `localhost` passes the scheme
check whatever its scheme; an unparseable string fails with the
malformed-endpoint error. -/
theorem getJwks_https_enforcement (parseURL : String → Option ParsedURL)
    (raw : String) (u : ParsedURL) :
    (parseURL raw = none →
      getJwksCheck parseURL raw = .error .malformedEndpoint)
    ∧ (parseURL raw = some u → u.protocol ≠ "https:" →
      u.hostname ≠ "localhost" → u.hostname ≠ "127.0.0.1" →
      u.hostname ≠ "::1" →
      getJwksCheck parseURL raw = .error (.insecureEndpoint raw))
    ∧ (parseURL raw = some u → u.hostname = "localhost" →
      getJwksCheck parseURL raw = .ok u) := by
  refine ⟨?_, ?_, ?_⟩
  · intro hp
    simp [getJwksCheck, hp]
  · intro hp hproto h1 h2 h3
    simp [getJwksCheck, hp, hproto, h1, h2, h3]
  · intro hp hloc
    simp [getJwksCheck, hp, hloc]

/-- C6 witness: a plain-HTTP non-loopback endpoint is rejected as insecure,
plain HTTP on `localhost` passes the check, and an unparseable string is
rejected as malformed (the parse function models the WHATWG URL
constructor on these three inputs). -/
theorem getJwks_https_enforcement_witness :
    getJwksCheck (fun s =>
        if s = "http://evil.example/jwks" then
          some ⟨"http:", "evil.example"⟩
        else if s = "http://localhost:3000/api/jwks" then
          some ⟨"http:", "localhost"⟩
        else none)
      "http://evil.example/jwks"
      = .error (.insecureEndpoint "http://evil.example/jwks")
    ∧ getJwksCheck (fun s =>
        if s = "http://evil.example/jwks" then
          some ⟨"http:", "evil.example"⟩
        else if s = "http://localhost:3000/api/jwks" then
          some ⟨"http:", "localhost"⟩
        else none)
      "http://localhost:3000/api/jwks" = .ok ⟨"http:", "localhost"⟩
    ∧ getJwksCheck (fun s =>
        if s = "http://evil.example/jwks" then
          some ⟨"http:", "evil.example"⟩
        else if s = "http://localhost:3000/api/jwks" then
          some ⟨"http:", "localhost"⟩
        else none)
      "not a url" = .error .malformedEndpoint := by
  refine ⟨?_, ?_, ?_⟩
  · exact (getJwks_https_enforcement _ _ ⟨"http:", "evil.example"⟩).2.1
      (by decide) (by decide) (by decide) (by decide) (by decide)
  · exact (getJwks_https_enforcement _ _ ⟨"http:", "localhost"⟩).2.2
      (by decide) rfl
  · exact (getJwks_https_enforcement _ _ ⟨"", ""⟩).1 (by decide)

/-- C7: `extractToken` prefers a case-exact `Bearer` token with non-empty
trimmed remainder (even when the fallback header is present); an empty
remainder, a non-Bearer scheme, or a missing Authorization header defer to
the fallback header, which yields its trimmed value when non-empty and
nothing otherwise. -/
theorem extractToken_precedence (h : List (String × String)) :
    (∀ auth, hget h "authorization" = some auth →
      startsWithStr auth "Bearer " = true →
      trimStr (dropStr auth 7) ≠ "" →
      extractToken h = some (trimStr (dropStr auth 7)))
    ∧ (∀ auth, hget h "authorization" = some auth →
      startsWithStr auth "Bearer " = true →
      trimStr (dropStr auth 7) = "" →
      extractToken h = extractFallback h)
    ∧ (∀ auth, hget h "authorization" = some auth →
      startsWithStr auth "Bearer " = false →
      extractToken h = extractFallback h)
    ∧ (hget h "authorization" = none →
      extractToken h = extractFallback h)
    ∧ (∀ c, hget h "x-agentid-token" = some c → trimStr c ≠ "" →
      extractFallback h = some (trimStr c))
    ∧ (hget h "x-agentid-token" = none → extractFallback h = none)
    ∧ (∀ c, hget h "x-agentid-token" = some c → trimStr c = "" →
      extractFallback h = none) := by
  refine ⟨?_, ?_, ?_, ?_, ?_, ?_, ?_⟩
  · intro auth ha hsw hne
    simp [extractToken, ha, hsw, hne]
  · intro auth ha hsw hemp
    simp [extractToken, ha, hsw, hemp]
  · intro auth ha hsw
    simp [extractToken, ha, hsw]
  · intro ha
    simp [extractToken, ha, startsWithStr, List.isPrefixOf]
  · intro c hc hne
    simp [extractFallback, hc, hne]
  · intro hc
    simp [extractFallback, hc]
  · intro c hc hemp
    simp [extractFallback, hc, hemp]

/-- C7 witness: Bearer wins over a present fallback; an empty Bearer
remainder falls back to the trimmed custom header; a non-Bearer scheme
alone yields no token. -/
theorem extractToken_precedence_witness :
    extractToken [("authorization", "Bearer  tok1 "),
      ("x-agentid-token", " fb ")] = some "tok1"
    ∧ extractToken [("authorization", "Bearer   "),
      ("x-agentid-token", " fb ")] = some "fb"
    ∧ extractToken [("authorization", "Basic dXNlcjpwYXNz")] = none := by
  refine ⟨?_, ?_, ?_⟩
  · have h1 := (extractToken_precedence [("authorization", "Bearer  tok1 "),
      ("x-agentid-token", " fb ")]).1 "Bearer  tok1 " rfl (by decide)
      (by decide)
    exact h1.trans (by decide)
  · have h2 := (extractToken_precedence [("authorization", "Bearer   "),
      ("x-agentid-token", " fb ")]).2.1 "Bearer   " rfl (by decide)
      (by decide)
    exact h2.trans (by decide)
  · have h3 := (extractToken_precedence
      [("authorization", "Basic dXNlcjpwYXNz")]).2.2.1 "Basic dXNlcjpwYXNz"
      rfl (by decide)
    exact h3.trans (by decide)

/-- C10: `getAgentIDResult` is total by construction and never throws; when
the verified header is exactly `"true"` but the claims header is absent or
fails to parse as JSON, it returns unverified with reason `invalid_token`;
when the verified header is absent or holds any value other than `"true"`
or `"false"`, it returns unverified with reason `not_agent`. -/
theorem getAgentIDResult_cases (parse : String → Option JWTPayload)
    (h : List (String × String)) :
    (∀ v, hget h "x-agentid-verified" = some v → v ≠ "true" → v ≠ "false" →
      getAgentIDResult parse h = .unverified .not_agent)
    ∧ (hget h "x-agentid-verified" = none →
      getAgentIDResult parse h = .unverified .not_agent)
    ∧ (hget h "x-agentid-verified" = some "true" →
      (hget h "x-agentid-claims" = none →
        getAgentIDResult parse h = .unverified .invalid_token)
      ∧ (∀ s, hget h "x-agentid-claims" = some s → parse s = none →
        getAgentIDResult parse h = .unverified .invalid_token)) := by
  refine ⟨?_, ?_, ?_⟩
  · intro v hv hvt hvf
    simp [getAgentIDResult, hv, hvt, hvf]
  · intro hv
    simp [getAgentIDResult, hv]
  · intro hv
    constructor
    · intro hc
      simp [getAgentIDResult, hv, hc]
    · intro s hc hp
      by_cases hse : s = ""
      · simp [getAgentIDResult, hv, hc, hse]
      · simp [getAgentIDResult, hv, hc, hse, hp]

/-- C10 witness: `x-agentid-verified: true` with a missing or unparseable
claims header reads as `invalid_token`; a spoofed `x-agentid-verified:
maybe` and an absent header both read as `not_agent`. -/
theorem getAgentIDResult_cases_witness :
    getAgentIDResult (fun _ => none) [("x-agentid-verified", "true")]
      = .unverified .invalid_token
    ∧ getAgentIDResult (fun _ => none) [("x-agentid-verified", "true"),
      ("x-agentid-claims", "not json")] = .unverified .invalid_token
    ∧ getAgentIDResult (fun _ => none) [("x-agentid-verified", "maybe")]
      = .unverified .not_agent
    ∧ getAgentIDResult (fun _ => none) [("user-agent", "curl/8.0")]
      = .unverified .not_agent := by
  refine ⟨?_, ?_, ?_, ?_⟩
  · exact ((getAgentIDResult_cases (fun _ => none)
      [("x-agentid-verified", "true")]).2.2 rfl).1 rfl
  · exact ((getAgentIDResult_cases (fun _ => none)
      [("x-agentid-verified", "true"),
        ("x-agentid-claims", "not json")]).2.2 rfl).2 "not json" rfl rfl
  · exact (getAgentIDResult_cases (fun _ => none)
      [("x-agentid-verified", "maybe")]).1 "maybe" rfl
      (by decide) (by decide)
  · exact (getAgentIDResult_cases (fun _ => none)
      [("user-agent", "curl/8.0")]).2.1 rfl

/-! ## Helper lemmas: the unauthorized path and header stripping -/

theorem unauthorized_next (request rh : List (String × String))
    (msg : String) (b : Bool)
    (cb : Option (List (String × String) → String → Option Nat))
    (fh : List (String × String))
    (hfh : unauthorized request rh msg b cb = .next fh) :
    fh = hset rh "x-agentid-verified" "false" := by
  rcases cb with _ | f
  · rcases hb : b
    · simp [unauthorized, unauthorizedDefault, hb] at hfh
      exact hfh.symm
    · simp [unauthorized, unauthorizedDefault, hb] at hfh
  · rcases hcall : f request msg with _ | r
    · rcases hb : b
      · simp [unauthorized, unauthorizedDefault, hcall, hb] at hfh
        exact hfh.symm
      · simp [unauthorized, unauthorizedDefault, hcall, hb] at hfh
    · simp [unauthorized, hcall] at hfh

theorem unauthorized_no_override (request rh : List (String × String))
    (msg : String) (b : Bool) :
    unauthorized request rh msg b none = unauthorizedDefault rh msg b := rfl

theorem agentIDMiddleware_strip (opts : MWOptions)
    (v : String → Except String JWTPayload) (h : List (String × String))
    (hov : opts.onUnauthorizedAgent = none) :
    agentIDMiddleware opts v (stripManaged h) = agentIDMiddleware opts v h := by
  simp only [agentIDMiddleware, stripManaged_idem, hov,
    unauthorized_no_override]

/-- C2: whatever values the client supplies for the three reserved headers,
the middleware's behaviour is that of the stripped request (no override
configured), and a forwarded header set carries `x-agentid-verified: true`
exactly when the request classified as an agent and `verifyAgentIDToken`
succeeded on the token extracted from the stripped headers — a client can
never forge a verified result. -/
theorem middleware_antispoof (opts : MWOptions)
    (v : String → Except String JWTPayload) (h : List (String × String)) :
    (opts.onUnauthorizedAgent = none →
      agentIDMiddleware opts v h = agentIDMiddleware opts v (stripManaged h))
    ∧ ∀ fh, agentIDMiddleware opts v h = .next fh →
      (hget fh "x-agentid-verified" = some "true" ↔
        isAgentRequest (stripManaged h) = true ∧
        ∃ t c, extractToken (stripManaged h) = some t ∧
          v t = Except.ok c) := by
  constructor
  · intro hov
    exact (agentIDMiddleware_strip opts v h hov).symm
  · intro fh hfh
    by_cases hA : isAgentRequest (stripManaged h) = true
    · rcases hx : extractToken (stripManaged h) with _ | t
      · have hu : unauthorized h (stripManaged h) MISSING_TOKEN_MESSAGE
            opts.blockUnauthorizedAgents opts.onUnauthorizedAgent
            = .next fh := by
          rw [← hfh]
          simp [agentIDMiddleware, hA, hx]
        have hfh2 := unauthorized_next _ _ _ _ _ _ hu
        subst hfh2
        rw [hget_hset_self]
        simp [hx]
      · rcases hv : v t with e | c
        · have hu : unauthorized h (stripManaged h) INVALID_TOKEN_MESSAGE
              opts.blockUnauthorizedAgents opts.onUnauthorizedAgent
              = .next fh := by
            rw [← hfh]
            simp [agentIDMiddleware, hA, hx, hv]
          have hfh2 := unauthorized_next _ _ _ _ _ _ hu
          subst hfh2
          rw [hget_hset_self]
          simp [hx, hv]
        · have hn : agentIDMiddleware opts v h = .next (hset (hset (hset
              (stripManaged h) "x-agentid-verified" "true") "x-agentid-sub"
              (c.sub.getD "")) "x-agentid-claims" (stringifyClaims c)) := by
            simp [agentIDMiddleware, hA, hx, hv]
          rw [hn] at hfh
          injection hfh with hfh2
          subst hfh2
          constructor
          · intro _
            exact ⟨hA, t, c, rfl, hv⟩
          · intro _
            rw [hget_hset_ne _ _ _ _ (by decide),
              hget_hset_ne _ _ _ _ (by decide), hget_hset_self]
    · have hA0 : isAgentRequest (stripManaged h) = false := by
        revert hA; cases isAgentRequest (stripManaged h) <;> simp
      have hfh2 : fh = stripManaged h := by
        simp [agentIDMiddleware, hA0] at hfh
        exact hfh.symm
      subst hfh2
      rw [hget_stripManaged_verified]
      simp [hA0]

/-- C2 witness: a client-supplied `x-agentid-verified: true` header is
stripped (the middleware behaves as on the sanitized request) and the
forwarded marker on the unauthorized pass-through is not `"true"`. -/
theorem middleware_antispoof_witness :
    agentIDMiddleware { blockUnauthorizedAgents := false }
        (fun _ => Except.error "bad token")
        [("user-agent", "curl/7.88.1"), ("x-agentid-verified", "true")]
      = agentIDMiddleware { blockUnauthorizedAgents := false }
        (fun _ => Except.error "bad token")
        (stripManaged [("user-agent", "curl/7.88.1"),
          ("x-agentid-verified", "true")])
    ∧ ¬ (hget [("user-agent", "curl/7.88.1"),
        ("x-agentid-verified", "false")] "x-agentid-verified"
        = some "true") := by
  constructor
  · exact (middleware_antispoof { blockUnauthorizedAgents := false }
      (fun _ => Except.error "bad token")
      [("user-agent", "curl/7.88.1"), ("x-agentid-verified", "true")]).1 rfl
  · intro hcon
    have h2 := (middleware_antispoof { blockUnauthorizedAgents := false }
      (fun _ => Except.error "bad token")
      [("user-agent", "curl/7.88.1"), ("x-agentid-verified", "true")]).2
      [("user-agent", "curl/7.88.1"), ("x-agentid-verified", "false")]
      (by decide)
    obtain ⟨_, t, c, _, hv⟩ := h2.mp hcon
    simp at hv

/-- C3: any two verification failures, whatever their reasons, produce
identical caller-visible outcomes: the same `unauthorized` result carrying
the one generic message, and in blocking mode the same fixed 403 body —
the failure kind is not observable. -/
theorem middleware_uniform_failure_outcome (opts : MWOptions)
    (v1 v2 : String → Except String JWTPayload)
    (h : List (String × String)) (t e1 e2 : String)
    (hA : isAgentRequest (stripManaged h) = true)
    (ht : extractToken (stripManaged h) = some t)
    (h1 : v1 t = Except.error e1) (h2 : v2 t = Except.error e2) :
    agentIDMiddleware opts v1 h =
      unauthorized h (stripManaged h) INVALID_TOKEN_MESSAGE
        opts.blockUnauthorizedAgents opts.onUnauthorizedAgent
    ∧ agentIDMiddleware opts v1 h = agentIDMiddleware opts v2 h
    ∧ (opts.blockUnauthorizedAgents = true →
      opts.onUnauthorizedAgent = none →
      agentIDMiddleware opts v1 h =
        .json403 "AGENT_UNAUTHORIZED" INVALID_TOKEN_MESSAGE) := by
  have hu1 : agentIDMiddleware opts v1 h = unauthorized h (stripManaged h)
      INVALID_TOKEN_MESSAGE opts.blockUnauthorizedAgents
      opts.onUnauthorizedAgent := by
    simp [agentIDMiddleware, hA, ht, h1]
  have hu2 : agentIDMiddleware opts v2 h = unauthorized h (stripManaged h)
      INVALID_TOKEN_MESSAGE opts.blockUnauthorizedAgents
      opts.onUnauthorizedAgent := by
    simp [agentIDMiddleware, hA, ht, h2]
  refine ⟨hu1, hu1.trans hu2.symm, ?_⟩
  intro hb hov
  rw [hu1, hov, unauthorized_no_override]
  simp [unauthorizedDefault, hb]

/-- C3 witness: two differently failing verifiers produce equal outcomes,
and the blocking outcome is the fixed 403 body with the generic message. -/
theorem middleware_uniform_failure_outcome_witness :
    agentIDMiddleware {} (fun _ => Except.error "token expired")
        [("user-agent", "curl/7.88.1"), ("authorization", "Bearer aaa")]
      = agentIDMiddleware {} (fun _ => Except.error "bad signature")
        [("user-agent", "curl/7.88.1"), ("authorization", "Bearer aaa")]
    ∧ agentIDMiddleware {} (fun _ => Except.error "token expired")
        [("user-agent", "curl/7.88.1"), ("authorization", "Bearer aaa")]
      = .json403 "AGENT_UNAUTHORIZED" INVALID_TOKEN_MESSAGE := by
  have hmw := middleware_uniform_failure_outcome {}
    (fun _ => Except.error "token expired")
    (fun _ => Except.error "bad signature")
    [("user-agent", "curl/7.88.1"), ("authorization", "Bearer aaa")]
    "aaa" "token expired" "bad signature" (by decide) (by decide) rfl rfl
  exact ⟨hmw.2.1, hmw.2.2 rfl rfl⟩

/-- C4 counterexample: in non-blocking mode, an agent request whose token
fails verification is forwarded with `x-agentid-verified: false`, and
`getAgentIDResult` reads it as reason `no_token` — not `invalid_token` as
the claim states. -/
theorem middleware_invalid_reads_no_token_cex :
    agentIDMiddleware { blockUnauthorizedAgents := false }
        (fun _ => Except.error "bad signature")
        [("user-agent", "curl/7.88.1"), ("authorization", "Bearer aaa")]
      = .next [("user-agent", "curl/7.88.1"), ("authorization", "Bearer aaa"),
        ("x-agentid-verified", "false")]
    ∧ getAgentIDResult (fun _ => none)
        [("user-agent", "curl/7.88.1"), ("authorization", "Bearer aaa"),
          ("x-agentid-verified", "false")]
      = .unverified .no_token
    ∧ UnverifiedReason.no_token ≠ UnverifiedReason.invalid_token := by
  refine ⟨by decide, by decide, by decide⟩

/-- C4 (amended): in non-blocking mode with no override, every unauthorized
agent request — whether its token failed verification or it carried no
token at all — is forwarded with `x-agentid-verified: false` and reads
downstream as `Unverified` with reason `no_token`; the two unauthorized
causes are not distinguishable through `getAgentIDResult` (its
`invalid_token` reason only arises when the verified header is `"true"`
but the claims header is missing or unparseable). -/
theorem middleware_nonblocking_unauthorized_reason (opts : MWOptions)
    (v : String → Except String JWTPayload) (h : List (String × String))
    (t e : String) (hb : opts.blockUnauthorizedAgents = false)
    (hov : opts.onUnauthorizedAgent = none)
    (hA : isAgentRequest (stripManaged h) = true) :
    (extractToken (stripManaged h) = some t → v t = Except.error e →
      agentIDMiddleware opts v h =
        .next (hset (stripManaged h) "x-agentid-verified" "false")
      ∧ ∀ parse, getAgentIDResult parse
          (hset (stripManaged h) "x-agentid-verified" "false")
        = .unverified .no_token)
    ∧ (extractToken (stripManaged h) = none →
      agentIDMiddleware opts v h =
        .next (hset (stripManaged h) "x-agentid-verified" "false")
      ∧ ∀ parse, getAgentIDResult parse
          (hset (stripManaged h) "x-agentid-verified" "false")
        = .unverified .no_token) := by
  have hread : ∀ parse, getAgentIDResult parse
      (hset (stripManaged h) "x-agentid-verified" "false")
      = .unverified .no_token := by
    intro parse
    have hv := hget_hset_self (stripManaged h) "x-agentid-verified" "false"
    simp [getAgentIDResult, hv]
  constructor
  · intro ht hv
    refine ⟨?_, hread⟩
    simp [agentIDMiddleware, hA, ht, hv, hov, unauthorized_no_override,
      unauthorizedDefault, hb]
  · intro ht
    refine ⟨?_, hread⟩
    simp [agentIDMiddleware, hA, ht, hov, unauthorized_no_override,
      unauthorizedDefault, hb]

/-- C4 witness: the `no_token` downstream reading for a failing-token agent
request and for a token-less agent request. -/
theorem middleware_nonblocking_unauthorized_reason_witness :
    getAgentIDResult (fun _ => none)
      (hset (stripManaged [("user-agent", "curl/7.88.1"),
        ("authorization", "Bearer aaa")]) "x-agentid-verified" "false")
      = .unverified .no_token
    ∧ getAgentIDResult (fun _ => none)
      (hset (stripManaged [("user-agent", "curl/7.88.1")])
        "x-agentid-verified" "false")
      = .unverified .no_token := by
  constructor
  · exact ((middleware_nonblocking_unauthorized_reason
      { blockUnauthorizedAgents := false } (fun _ => Except.error "sig")
      [("user-agent", "curl/7.88.1"), ("authorization", "Bearer aaa")]
      "aaa" "sig" rfl rfl (by decide)).1 (by decide) rfl).2 (fun _ => none)
  · exact ((middleware_nonblocking_unauthorized_reason
      { blockUnauthorizedAgents := false } (fun _ => Except.error "sig")
      [("user-agent", "curl/7.88.1")] "aaa" "sig" rfl rfl
      (by decide)).2 (by decide)).2 (fun _ => none)

/-- C9 counterexample: `accept-language` is present (with an empty value) on
a non-browser, non-allowlisted user agent, yet `isAgentRequest` returns
`true` — the claim requires `false` whenever the header is present, but
the code tests JavaScript truthiness, so an empty value counts as absent. -/
theorem isAgentRequest_empty_accept_language_cex :
    hget [("user-agent", "python-urllib/3.11"), ("accept-language", "")]
      "accept-language" = some ""
    ∧ BOT_UA_PATTERNS.any
      (fun p => uaPatternTest p "python-urllib/3.11") = false
    ∧ browserTest "python-urllib/3.11" = false
    ∧ isAgentRequest [("user-agent", "python-urllib/3.11"),
      ("accept-language", "")] = true := by
  refine ⟨by decide, by decide, by decide, by decide⟩

/-- C9 (amended): for a non-empty `user-agent` matching no allowlist entry —
if it lacks the browser marker and `accept-language` is absent or empty,
the request classifies as automated; if `accept-language` is present with a
non-empty value, it classifies as human (the conservative tie-break).  An
empty `accept-language` value is treated like an absent header. -/
theorem isAgentRequest_heuristic (h : List (String × String)) (ua : String)
    (hua : hget h "user-agent" = some ua) (hne : ua ≠ "")
    (hbot : BOT_UA_PATTERNS.any (fun p => uaPatternTest p ua) = false) :
    (browserTest ua = false → ((hget h "accept-language").getD "") = "" →
      isAgentRequest h = true)
    ∧ (∀ al, hget h "accept-language" = some al → al ≠ "" →
      isAgentRequest h = false) := by
  constructor
  · intro hb hal
    simp [isAgentRequest, hua, hne, hbot, hb, hal]
  · intro al hal hne2
    rcases hb : browserTest ua
    · simp [isAgentRequest, hua, hne, hbot, hb, hal, hne2]
    · simp [isAgentRequest, hua, hne, hbot, hb, hal, hne2]

/-- C9 witness: a custom non-browser user agent with no `accept-language`
classifies as automated; the same user agent with `accept-language: en-US`
classifies as human. -/
theorem isAgentRequest_heuristic_witness :
    isAgentRequest [("user-agent", "python-urllib/3.11")] = true
    ∧ isAgentRequest [("user-agent", "python-urllib/3.11"),
        ("accept-language", "en-US")] = false := by
  constructor
  · exact (isAgentRequest_heuristic [("user-agent", "python-urllib/3.11")]
      "python-urllib/3.11" rfl (by decide) (by decide)).1 (by decide) rfl
  · exact (isAgentRequest_heuristic [("user-agent", "python-urllib/3.11"),
      ("accept-language", "en-US")] "python-urllib/3.11" rfl (by decide)
      (by decide)).2 "en-US" rfl (by decide)
